import Mathlib

/-!
Verification of the registration dashboard frontend (`src/App.jsx`).

The file shallowly embeds the client-side validation logic, the password
criteria evaluator, the two submit handlers (login and registration) as
event traces over an explicit environment, and the status-message
lifecycle including the `clearMessage` timer of the `App` component.
-/

namespace RegDash

/-! ## Character classes used by the regexes in `App.jsx` -/

/-- Whitespace characters matched by the JavaScript regex class `\s`
(used negated inside the email regex `[^\s@]`). -/
def isJsWhitespace (c : Char) : Bool :=
  c == ' ' || c == '\t' || c == '\n' || c == '\r' ||
  c == '\x0b' || c == '\x0c' ||
  c == '\u00a0' || c == '\u1680' ||
  (decide (Char.ofNat 0x2000 ≤ c) && decide (c ≤ Char.ofNat 0x200a)) ||
  c == '\u2028' || c == '\u2029' || c == '\u202f' || c == '\u205f' ||
  c == '\u3000' || c == '\ufeff'

/-- The character class `[^\s@]` of the email regex: any character that is
neither whitespace nor `@`. -/
def atomChar (c : Char) : Bool :=
  !(isJsWhitespace c) && !(c == '@')

/-- The character class `[A-Z]` (line 36 and line 45 of `App.jsx`). -/
def isUpperAZ (c : Char) : Bool :=
  decide ('A' ≤ c) && decide (c ≤ 'Z')

/-- The character class `[a-z]` (line 37 and line 46 of `App.jsx`). -/
def isLowerAZ (c : Char) : Bool :=
  decide ('a' ≤ c) && decide (c ≤ 'z')

/-- The character class `\d` = `[0-9]` (line 38 and line 47 of `App.jsx`). -/
def isDigit09 (c : Char) : Bool :=
  decide ('0' ≤ c) && decide (c ≤ '9')

/-- The special-character class of the password regex
`[!@#$%^&*()_+\-=\[\]{};':"\\|,.<>\/?]` (line 39 and line 48 of `App.jsx`).
The brace, apostrophe, double-quote and backslash characters are written
via their code points. -/
def specialChars : List Char :=
  ['!', '@', '#', '$', '%', '^', '&', '*', '(', ')', '_', '+', '-', '=',
   '[', ']', Char.ofNat 123, Char.ofNat 125, ';', Char.ofNat 39, ':',
   Char.ofNat 34, Char.ofNat 92, '|', ',', '.', '<', '>', '/', '?']

/-- Membership in the special-character class. -/
def isSpecialChar (c : Char) : Bool :=
  specialChars.contains c

/-- The character class `[a-zA-Z0-9_]` of the username regex
(line 28 of `App.jsx`). -/
def usernameChar (c : Char) : Bool :=
  isLowerAZ c || isUpperAZ c || isDigit09 c || c == '_'

/-! ## The email regex `^[^\s@]+@[^\s@]+\.[^\s@]+$` (line 20 of `App.jsx`)

The matcher below is a deterministic implementation of this regex: since
`[^\s@]` excludes `@`, the first atom run is exactly the prefix before the
first `@`, and after the `@` the regex demands a run of atom characters
containing a `.` with at least one atom character on each side (the runs
may themselves contain further dots, matching the regex's backtracking).
`emailMatcher_iff` below proves this matcher equivalent to the
decomposition semantics of the regex. -/

/-- `dotSplitOk l` holds when `l = b ++ sep :: c` for some (possibly empty)
`b`, a literal dot `sep`, and a nonempty `c`. -/
def dotSplitOk : List Char → Bool
  | [] => false
  | c :: cs => (c == '.' && !cs.isEmpty) || dotSplitOk cs

/-- Check the part of the email regex from the `@` on: `rest` must be the
`@` followed by a nonempty run of atom characters containing an interior
dot; `lpart` is the local part before the `@`. -/
def checkDomain (lpart rest : List Char) : Bool :=
  match rest with
  | _ :: d0 :: drest =>
      !lpart.isEmpty && lpart.all atomChar &&
      ((d0 :: drest).all atomChar) && dotSplitOk drest
  | _ => false

/-- `emailRegex.test` on a list of characters. -/
def emailMatcher (cs : List Char) : Bool :=
  checkDomain (cs.takeWhile fun c => !(c == '@'))
    (cs.dropWhile fun c => !(c == '@'))

/-- `emailRegex.test(email)` from line 21 of `App.jsx`. -/
def emailRegexTest (s : String) : Bool :=
  emailMatcher s.toList

/-! ## Validators (`App.jsx` lines 18-41)

JavaScript's `!s` on a string is true exactly for the empty string, and
`s.length` is embedded as the character count. -/

/-- `validateEmail` (lines 18-23 of `App.jsx`). -/
def validateEmail (email : String) : Option String :=
  if email = "" then some "Email is required."
  else if !(emailRegexTest email) then some "Please enter a valid email address."
  else none

/-- `usernameRegex.test(username)` with `usernameRegex = /^[a-zA-Z0-9_]+$/`
(lines 28-29 of `App.jsx`): nonempty and every character in the class. -/
def usernameRegexTest (s : String) : Bool :=
  !s.toList.isEmpty && s.toList.all usernameChar

/-- `validateUsername` (lines 25-31 of `App.jsx`). -/
def validateUsername (username : String) : Option String :=
  if username = "" then some "Username is required."
  else if username.length < 3 then some "Username must be at least 3 characters long."
  else if !(usernameRegexTest username) then some "Username can only contain letters, numbers, and underscores."
  else none

/-- `/[A-Z]/.test(password)` (line 36 of `App.jsx`; the same regex is used
on line 45). -/
def hasUppercase (s : String) : Bool :=
  s.toList.any isUpperAZ

/-- `/[a-z]/.test(password)` (line 37, also line 46). -/
def hasLowercase (s : String) : Bool :=
  s.toList.any isLowerAZ

/-- `/\d/.test(password)` (line 38, also line 47). -/
def hasDigit (s : String) : Bool :=
  s.toList.any isDigit09

/-- `/[!@#$%^&*()_+\-=\[\]{};':"\\|,.<>\/?]/.test(password)` (line 39,
also line 48). -/
def hasSpecialChar (s : String) : Bool :=
  s.toList.any isSpecialChar

/-- `validatePassword` (lines 33-41 of `App.jsx`). -/
def validatePassword (password : String) : Option String :=
  if password = "" then some "Password is required."
  else if password.length < 8 ∨ password.length > 12 then
    some "Password must be between 8 and 12 characters."
  else if !(hasUppercase password) then some "Password must contain at least one uppercase letter."
  else if !(hasLowercase password) then some "Password must contain at least one lowercase letter."
  else if !(hasDigit password) then some "Password must contain at least one number."
  else if !(hasSpecialChar password) then some "Password must contain at least one special character."
  else none

/-- The five booleans of `getPasswordCriteria` (lines 43-49 of `App.jsx`). -/
structure PasswordCriteria where
  length : Bool
  uppercase : Bool
  lowercase : Bool
  number : Bool
  specialChar : Bool
deriving DecidableEq, Repr

/-- `getPasswordCriteria` (lines 43-49 of `App.jsx`). -/
def getPasswordCriteria (password : String) : PasswordCriteria :=
  { length := decide (password.length ≥ 8) && decide (password.length ≤ 12)
    uppercase := hasUppercase password
    lowercase := hasLowercase password
    number := hasDigit password
    specialChar := hasSpecialChar password }

/-! ## Spec-side definitions for the refinement claims -/

/-- Spec-side reading of the email pattern of section 4.1 of the
specification: *non-whitespace-non-@ characters, `@`,
non-whitespace-non-@ characters, `.`, non-whitespace-non-@ characters*,
each run nonempty. -/
def emailPatternMatch (s : String) : Prop :=
  ∃ a b c : List Char, a ≠ [] ∧ b ≠ [] ∧ c ≠ [] ∧
    (∀ x ∈ a, atomChar x = true) ∧ (∀ x ∈ b, atomChar x = true) ∧
    (∀ x ∈ c, atomChar x = true) ∧
    s.toList = a ++ '@' :: (b ++ '.' :: c)

/-- Spec-side transcription of section 4.1's ordered description of the
password validator: empty, then length outside `[8,12]`, then the missing
uppercase, lowercase, digit and special-character checks, first unmet
condition's message returned, `none` when all pass. -/
def validatePasswordSpec (s : String) : Option String :=
  if s = "" then some "Password is required."
  else if ¬(8 ≤ s.length ∧ s.length ≤ 12) then
    some "Password must be between 8 and 12 characters."
  else if ¬(hasUppercase s = true) then some "Password must contain at least one uppercase letter."
  else if ¬(hasLowercase s = true) then some "Password must contain at least one lowercase letter."
  else if ¬(hasDigit s = true) then some "Password must contain at least one number."
  else if ¬(hasSpecialChar s = true) then some "Password must contain at least one special character."
  else none

/-! ## Submission workflow model

Each submit handler is embedded as the list of effects it performs, in
program order.  The event vocabulary covers every effect a handler can
perform: React state setters (`setIsLoading`, `setMessage`, `setErrors`,
`setFormData`), the `axios.post` call, `localStorage.setItem`, the
delayed `window.location.href` assignment, and a call to the `App`
component's `clearMessage` (which arms the 5-second expiry timer). -/

/-- The `App` status message state `{ type, content }` (line 276 of
`App.jsx`); `type` is one of `""`, `"success"`, `"error"`. -/
structure Message where
  type : String
  content : String
deriving DecidableEq, Repr

/-- The none-state `{ type: '', content: '' }` used as the initial message
and to reset the message at the start of each submission. -/
def blankMessage : Message :=
  { type := "", content := "" }

/-- Registration form data (line 182 of `App.jsx`). -/
structure RegisterFormData where
  username : String
  email : String
  password : String
deriving DecidableEq, Repr

/-- Login form data (line 125 of `App.jsx`). -/
structure LoginFormData where
  email : String
  password : String
deriving DecidableEq, Repr

/-- Per-field error entries of the registration form (`errors` state,
line 183 of `App.jsx`); an absent key of the JavaScript object is
`none`. -/
structure FieldErrors where
  username : Option String
  email : Option String
  password : Option String
deriving DecidableEq, Repr

/-- The empty `errors` object `{}`. -/
def noFieldErrors : FieldErrors :=
  { username := none, email := none, password := none }

/-- One observable effect of a submit handler; `φ` is the form-data type
of the owning form. -/
inductive FormEvent (φ : Type) where
  | setLoading (b : Bool)
  | setMessage (m : Message)
  | setErrors (e : FieldErrors)
  | setFormData (fd : φ)
  | httpPost (path : String) (body : φ)
  | storageWrite (key value : String)
  | scheduleNavigate (url : String) (delayMs : Nat)
  | armClearTimer
deriving DecidableEq

/-- `true` exactly on `httpPost` events. -/
def isHttpPost {φ : Type} : FormEvent φ → Bool
  | .httpPost _ _ => true
  | _ => false

/-- `true` exactly on `armClearTimer` events. -/
def isArmClearTimer {φ : Type} : FormEvent φ → Bool
  | .armClearTimer => true
  | _ => false

/-- The state a submit handler acts on: the form's own React state
(`formData`, `errors`, `isLoading`), the shared status message, and the
logs of requests, storage writes, scheduled navigations and armed
message-expiry timers. -/
structure FormEnv (φ : Type) where
  formData : φ
  errors : FieldErrors
  isLoading : Bool
  message : Message
  httpPosts : List (String × φ)
  storageWrites : List (String × String)
  navs : List (String × Nat)
  timerArms : Nat
deriving DecidableEq

/-- Effect of one event on the environment. -/
def applyEvent {φ : Type} (env : FormEnv φ) : FormEvent φ → FormEnv φ
  | .setLoading b => { env with isLoading := b }
  | .setMessage m => { env with message := m }
  | .setErrors e => { env with errors := e }
  | .setFormData fd => { env with formData := fd }
  | .httpPost path body => { env with httpPosts := env.httpPosts ++ [(path, body)] }
  | .storageWrite k v => { env with storageWrites := env.storageWrites ++ [(k, v)] }
  | .scheduleNavigate u d => { env with navs := env.navs ++ [(u, d)] }
  | .armClearTimer => { env with timerArms := env.timerArms + 1 }

/-- Run a trace of events from an environment. -/
def runEvents {φ : Type} (env : FormEnv φ) (evs : List (FormEvent φ)) : FormEnv φ :=
  evs.foldl applyEvent env

/-- `API_BASE_URL` (line 11 of `App.jsx`). -/
def API_BASE_URL : String :=
  "https://registration-dashboard-backend.vercel.app/api/auth"

/-- The `validationErrors` object computed by the registration submit
handler (lines 213-217 of `App.jsx`). -/
def registerValidationErrors (fd : RegisterFormData) : FieldErrors :=
  { username := validateUsername fd.username
    email := validateEmail fd.email
    password := validatePassword fd.password }

/-- `Object.values(validationErrors).some(error => error !== null)`
(line 221 of `App.jsx`). -/
def hasErrors (e : FieldErrors) : Bool :=
  e.username.isSome || e.email.isSome || e.password.isSome

/-- Outcome of the `axios.post` in the registration handler: success
carries `response.data.message`; failure carries the optional
`error.response?.data?.message`. -/
inductive RegisterHttp where
  | success (message : String)
  | failure (serverMessage : Option String)
deriving DecidableEq, Repr

/-- Outcome of the `axios.post` in the login handler: success carries
`response.data.token`; failure carries the optional
`error.response?.data?.message`. -/
inductive LoginHttp where
  | success (token : String)
  | failure (serverMessage : Option String)
deriving DecidableEq, Repr

/-- The registration submit handler `handleSubmit` (lines 208-247 of
`App.jsx`) as the trace of effects it performs on form data `fd` when the
HTTP layer would answer `http`.  Program order: `setIsLoading(true)`,
`setMessage` blank, `setErrors(validationErrors)`, then either the
validation-failure path (error message, `clearMessage()`, busy flag off,
return — no request) or the request followed by the success path
(success message, reset fields, reset errors, `clearMessage()`) or the
catch path (error message, `clearMessage()`), and in both of the latter
the `finally` block's `setIsLoading(false)`. -/
def registerSubmitTrace (fd : RegisterFormData) (http : RegisterHttp) :
    List (FormEvent RegisterFormData) :=
  [.setLoading true, .setMessage blankMessage,
   .setErrors (registerValidationErrors fd)] ++
  (if hasErrors (registerValidationErrors fd) then
    [.setMessage { type := "error", content := "Please fix the errors before submitting." },
     .armClearTimer, .setLoading false]
  else
    [.httpPost (API_BASE_URL ++ "/register") fd] ++
    (match http with
     | .success msg =>
        [.setMessage { type := "success", content := msg },
         .setFormData { username := "", email := "", password := "" },
         .setErrors noFieldErrors, .armClearTimer]
     | .failure sm =>
        [.setMessage
           { type := "error"
             content := sm.getD "Registration failed due to a network or server issue." },
         .armClearTimer]) ++
    [.setLoading false])

/-- The login submit handler `handleSubmit` (lines 132-153 of `App.jsx`)
as the trace of effects it performs.  Program order: `setIsLoading(true)`,
`setMessage` blank, the request, then on success
`localStorage.setItem('token', ...)`, the success message and the
1500 ms redirect `setTimeout` (note: no `clearMessage()` on this path),
or on failure the error message and `clearMessage()`; finally
`setIsLoading(false)`. -/
def loginSubmitTrace (fd : LoginFormData) (http : LoginHttp) :
    List (FormEvent LoginFormData) :=
  [.setLoading true, .setMessage blankMessage,
   .httpPost (API_BASE_URL ++ "/login") fd] ++
  (match http with
   | .success token =>
      [.storageWrite "token" token,
       .setMessage { type := "success", content := "Login successful! Redirecting..." },
       .scheduleNavigate "https://portfolio-shahid-frontend.vercel.app" 1500]
   | .failure sm =>
      [.setMessage
         { type := "error"
           content := sm.getD "Login failed due to a network or server issue." },
       .armClearTimer]) ++
  [.setLoading false]

/-! ## Message lifecycle model (`App.clearMessage`, lines 278-282)

`clearMessage` is a `useCallback` with dependency list `[message.content]`:
its closure captures the value of `message.content` at the render that
created it.  A submit handler holds the `clearMessage` prop of the render
it was created in, so every timer it arms captures the message content
that was rendered when the submission started — not the content of the
message just published.  For well-spaced sequential submissions that
captured value is the content displayed when the submit began.  When the
timer fires after 5000 ms it runs
`setMessage(prev => prev.content === message.content ? blank : prev)`,
i.e. it blanks the display exactly when the currently displayed content
equals the captured content. -/

/-- Message-lifecycle state: the displayed message and the pending
timers, each recorded as (absolute fire time in ms, captured content). -/
structure LifecycleState where
  displayed : Message
  timers : List (Nat × String)
deriving DecidableEq, Repr

/-- A submission at time `now` that publishes outcome message `m` and
calls `clearMessage()`: the new message replaces the displayed one and a
5000 ms timer is armed whose closure captured the content displayed when
the submission started. -/
def submitPublish (s : LifecycleState) (now : Nat) (m : Message) : LifecycleState :=
  { displayed := m, timers := s.timers ++ [(now + 5000, s.displayed.content)] }

/-- A submission that publishes `m` without calling `clearMessage()` (the
login success path): no timer is armed. -/
def submitPublishNoTimer (s : LifecycleState) (m : Message) : LifecycleState :=
  { s with displayed := m }

/-- A timer with captured content `captured` fires: the display is
blanked exactly when the displayed content equals the captured content
(lines 279-281 of `App.jsx`). -/
def fireTimer (s : LifecycleState) (captured : String) : LifecycleState :=
  if s.displayed.content = captured then { s with displayed := blankMessage } else s

/-! ## Helper lemmas about the email matcher -/

theorem takeWhile_all_append (p : Char → Bool) (a : List Char) (y : Char) (t : List Char)
    (ha : ∀ x ∈ a, p x = true) (hy : p y = false) :
    (a ++ y :: t).takeWhile p = a ∧ (a ++ y :: t).dropWhile p = y :: t := by
  induction a with
  | nil =>
    simp [List.takeWhile_cons, List.dropWhile_cons, hy]
  | cons x xs ih =>
    have hx : p x = true := ha x (by simp)
    have ih' := ih fun z hz => ha z (by simp [hz])
    simp [List.takeWhile_cons, List.dropWhile_cons, hx, ih'.1, ih'.2]

theorem dropWhile_head_false (p : Char → Bool) (l : List Char) (y : Char) (t : List Char)
    (h : l.dropWhile p = y :: t) : p y = false := by
  induction l with
  | nil => simp [List.dropWhile] at h
  | cons x xs ih =>
    rw [List.dropWhile_cons] at h
    split at h
    · exact ih h
    · next hx =>
      obtain ⟨rfl, -⟩ := List.cons.inj h
      simpa using hx

theorem dotSplitOk_iff (l : List Char) :
    dotSplitOk l = true ↔ ∃ b c : List Char, c ≠ [] ∧ l = b ++ '.' :: c := by
  induction l with
  | nil =>
    simp [dotSplitOk]
  | cons x xs ih =>
    rw [dotSplitOk]
    simp only [Bool.or_eq_true, Bool.and_eq_true, beq_iff_eq, ih]
    constructor
    · rintro (⟨hx, hne⟩ | ⟨b, c, hc, rfl⟩)
      · refine ⟨[], xs, ?_, by simp [hx]⟩
        intro hemp
        rw [hemp] at hne
        simp at hne
      · exact ⟨x :: b, c, hc, rfl⟩
    · rintro ⟨b, c, hc, heq⟩
      cases b with
      | nil =>
        obtain ⟨rfl, rfl⟩ := List.cons.inj heq
        exact Or.inl ⟨rfl, by simpa [List.isEmpty_iff] using hc⟩
      | cons b0 bs =>
        obtain ⟨rfl, rfl⟩ := List.cons.inj heq
        exact Or.inr ⟨bs, c, hc, rfl⟩

/-- The deterministic matcher decides exactly the decomposition semantics
of the regex `^[^\s@]+@[^\s@]+\.[^\s@]+$`: a nonempty atom run, one `@`,
then an atom run containing an interior dot, the runs spanning the whole
string. -/
theorem emailMatcher_iff (cs : List Char) :
    emailMatcher cs = true ↔
      ∃ a b c : List Char, a ≠ [] ∧ b ≠ [] ∧ c ≠ [] ∧
        (∀ x ∈ a, atomChar x = true) ∧ (∀ x ∈ b, atomChar x = true) ∧
        (∀ x ∈ c, atomChar x = true) ∧
        cs = a ++ '@' :: (b ++ '.' :: c) := by
  constructor
  · intro h
    rw [emailMatcher] at h
    rcases hdw : cs.dropWhile (fun c => !(c == '@')) with _ | ⟨y, domain⟩
    · rw [hdw] at h
      exact absurd h (by simp [checkDomain])
    · rw [hdw] at h
      rcases domain with _ | ⟨d0, drest⟩
      · exact absurd h (by simp [checkDomain])
      · rw [checkDomain] at h
        simp only [Bool.and_eq_true] at h
        obtain ⟨⟨⟨hne, hla⟩, hda⟩, hdot⟩ := h
        have hy : (fun c => !(c == '@')) y = false :=
          dropWhile_head_false _ cs y _ hdw
        have hy' : y = '@' := by simpa using hy
        obtain ⟨b', c, hc, hrest⟩ := (dotSplitOk_iff drest).mp hdot
        have hcs : cs.takeWhile (fun c => !(c == '@')) ++
            cs.dropWhile (fun c => !(c == '@')) = cs :=
          List.takeWhile_append_dropWhile _ _
        have hda' : ∀ x ∈ d0 :: drest, atomChar x = true := List.all_eq_true.mp hda
        refine ⟨cs.takeWhile (fun c => !(c == '@')), d0 :: b', c, ?_, by simp, hc,
          List.all_eq_true.mp hla, ?_, ?_, ?_⟩
        · intro hemp
          rw [hemp] at hne
          simp at hne
        · intro x hx
          rcases List.mem_cons.mp hx with rfl | hx
          · exact hda' x (List.mem_cons_self x drest)
          · exact hda' x (List.mem_cons_of_mem _ (hrest ▸ List.mem_append_left _ hx))
        · intro x hx
          refine hda' x (List.mem_cons_of_mem _ (hrest ▸ List.mem_append_right _ ?_))
          exact List.mem_cons_of_mem _ hx
        · conv_lhs => rw [← hcs]
          rw [hdw, hy', hrest]
          simp
  · rintro ⟨a, b, c, ha, hb, hc, haa, hba, hca, rfl⟩
    have hpa : ∀ x ∈ a, (fun ch => !(ch == '@')) x = true := by
      intro x hx
      have hat := haa x hx
      rw [atomChar, Bool.and_eq_true] at hat
      exact hat.2
    have hpy : (fun ch => !(ch == '@')) '@' = false := by simp
    obtain ⟨htw, hdw⟩ := takeWhile_all_append _ a '@' _ hpa hpy
    rw [emailMatcher, htw, hdw]
    cases b with
    | nil => exact absurd rfl hb
    | cons b0 bs =>
      show checkDomain a ('@' :: b0 :: (bs ++ '.' :: c)) = true
      rw [checkDomain]
      simp only [Bool.and_eq_true]
      refine ⟨⟨⟨?_, ?_⟩, ?_⟩, ?_⟩
      · simpa [List.isEmpty_iff] using ha
      · exact List.all_eq_true.mpr haa
      · rw [List.all_eq_true]
        intro x hx
        rcases List.mem_cons.mp hx with rfl | hx
        · exact hba x (List.mem_cons_self x bs)
        · rcases List.mem_append.mp hx with hx | hx
          · exact hba x (List.mem_cons_of_mem _ hx)
          · rcases List.mem_cons.mp hx with rfl | hx
            · decide
            · exact hca x hx
      · exact (dotSplitOk_iff _).mpr ⟨bs, c, hc, rfl⟩

/-- The embedded `emailRegex.test` agrees with the spec-side pattern
description. -/
theorem emailRegexTest_iff (s : String) :
    emailRegexTest s = true ↔ emailPatternMatch s := by
  rw [emailRegexTest, emailPatternMatch, emailMatcher_iff]

/-! ## Claim theorems -/

/-- C8: `validateEmail` returns "Email is required." exactly on the empty
string, returns `none` exactly when the input matches the pattern
*non-whitespace-non-@ run, `@`, non-whitespace-non-@ run, `.`,
non-whitespace-non-@ run*, and returns "Please enter a valid email
address." otherwise; in particular `validateEmail "a@b"` is the format
error and `validateEmail "a@b.com"` is `none`. -/
theorem validateEmail_matches_spec (s : String) :
    (validateEmail s = some "Email is required." ↔ s = "") ∧
    (validateEmail s = none ↔ (s ≠ "" ∧ emailPatternMatch s)) ∧
    (validateEmail s = some "Please enter a valid email address." ↔
      (s ≠ "" ∧ ¬ emailPatternMatch s)) ∧
    validateEmail "a@b" = some "Please enter a valid email address." ∧
    validateEmail "a@b.com" = none := by
  refine ⟨?_, ?_, ?_, by decide, by decide⟩
  · rw [validateEmail]
    split_ifs with h1 h2
    · simp [h1]
    · constructor
      · intro hEq
        exact absurd (Option.some.inj hEq) (by decide)
      · intro hEq
        exact absurd hEq h1
    · constructor
      · intro hEq
        simp at hEq
      · intro hEq
        exact absurd hEq h1
  · rw [validateEmail]
    split_ifs with h1 h2
    · constructor
      · intro hEq
        simp at hEq
      · rintro ⟨hne, -⟩
        exact absurd h1 hne
    · constructor
      · intro hEq
        simp at hEq
      · rintro ⟨-, hm⟩
        rw [← emailRegexTest_iff] at hm
        rw [hm] at h2
        exact absurd h2 (by decide)
    · constructor
      · intro _
        refine ⟨h1, ?_⟩
        rw [← emailRegexTest_iff]
        simpa using h2
      · intro _
        rfl
  · rw [validateEmail]
    split_ifs with h1 h2
    · constructor
      · intro hEq
        exact absurd (Option.some.inj hEq) (by decide)
      · rintro ⟨hne, -⟩
        exact absurd h1 hne
    · constructor
      · intro _
        refine ⟨h1, ?_⟩
        intro hm
        rw [← emailRegexTest_iff] at hm
        rw [hm] at h2
        exact absurd h2 (by decide)
      · intro _
        rfl
    · constructor
      · intro hEq
        simp at hEq
      · rintro ⟨-, hm⟩
        refine absurd ?_ hm
        rw [← emailRegexTest_iff]
        simpa using h2

/-- C3: `validatePassword` agrees with the spec's ordered first-failure
description, and the three example inputs evaluate as the spec states. -/
theorem validatePassword_matches_spec (s : String) :
    validatePassword s = validatePasswordSpec s ∧
    validatePassword "short1!" = some "Password must be between 8 and 12 characters." ∧
    validatePassword "NoSpecial123" = some "Password must contain at least one special character." ∧
    validatePassword "Valid1$pw" = none := by
  refine ⟨?_, by decide, by decide, by decide⟩
  rw [validatePassword, validatePasswordSpec]
  split_ifs <;> first | rfl | omega | simp_all

/-- C4: each of the five booleans of `getPasswordCriteria` is true exactly
when the corresponding individual check inside `validatePassword` passes,
and `validatePassword` returns `none` exactly when all five criteria
booleans are true. -/
theorem getPasswordCriteria_agrees_with_validator (s : String) :
    ((getPasswordCriteria s).length = true ↔ ¬(s.length < 8 ∨ s.length > 12)) ∧
    (getPasswordCriteria s).uppercase = hasUppercase s ∧
    (getPasswordCriteria s).lowercase = hasLowercase s ∧
    (getPasswordCriteria s).number = hasDigit s ∧
    (getPasswordCriteria s).specialChar = hasSpecialChar s ∧
    (validatePassword s = none ↔
      ((getPasswordCriteria s).length = true ∧ (getPasswordCriteria s).uppercase = true ∧
       (getPasswordCriteria s).lowercase = true ∧ (getPasswordCriteria s).number = true ∧
       (getPasswordCriteria s).specialChar = true)) := by
  have hlen : (getPasswordCriteria s).length = true ↔ 8 ≤ s.length ∧ s.length ≤ 12 := by
    simp [getPasswordCriteria]
  refine ⟨by rw [hlen]; omega, rfl, rfl, rfl, rfl, ?_⟩
  have hup : (getPasswordCriteria s).uppercase = hasUppercase s := rfl
  have hlo : (getPasswordCriteria s).lowercase = hasLowercase s := rfl
  have hnu : (getPasswordCriteria s).number = hasDigit s := rfl
  have hsp : (getPasswordCriteria s).specialChar = hasSpecialChar s := rfl
  rw [validatePassword]
  split_ifs with h1 h2 h3 h4 h5 h6
  · constructor
    · intro hEq
      simp at hEq
    · rintro ⟨hl, -, -, -, -⟩
      rw [hlen, h1] at hl
      exact absurd hl.1 (by decide)
  · constructor
    · intro hEq
      simp at hEq
    · rintro ⟨hl, -, -, -, -⟩
      rw [hlen] at hl
      omega
  · constructor
    · intro hEq
      simp at hEq
    · rintro ⟨-, hu, -, -, -⟩
      rw [hup] at hu
      rw [hu] at h3
      exact absurd h3 (by decide)
  · constructor
    · intro hEq
      simp at hEq
    · rintro ⟨-, -, hu, -, -⟩
      rw [hlo] at hu
      rw [hu] at h4
      exact absurd h4 (by decide)
  · constructor
    · intro hEq
      simp at hEq
    · rintro ⟨-, -, -, hu, -⟩
      rw [hnu] at hu
      rw [hu] at h5
      exact absurd h5 (by decide)
  · constructor
    · intro hEq
      simp at hEq
    · rintro ⟨-, -, -, -, hu⟩
      rw [hsp] at hu
      rw [hu] at h6
      exact absurd h6 (by decide)
  · constructor
    · intro _
      refine ⟨hlen.mpr (by omega), ?_, ?_, ?_, ?_⟩
      · rw [hup]
        simpa using h3
      · rw [hlo]
        simpa using h4
      · rw [hnu]
        simpa using h5
      · rw [hsp]
        simpa using h6
    · intro _
      rfl

/-- C1: whenever one of the three validators rejects a current field
value, the registration submit handler performs no HTTP request,
publishes the error status message "Please fix the errors before
submitting.", and ends with the busy flag cleared (back to idle). -/
theorem register_invalid_no_network (fd : RegisterFormData) (http : RegisterHttp)
    (e0 : FormEnv RegisterFormData)
    (h : validateUsername fd.username ≠ none ∨ validateEmail fd.email ≠ none ∨
      validatePassword fd.password ≠ none) :
    (registerSubmitTrace fd http).countP isHttpPost = 0 ∧
    (runEvents e0 (registerSubmitTrace fd http)).message =
      { type := "error", content := "Please fix the errors before submitting." } ∧
    (runEvents e0 (registerSubmitTrace fd http)).isLoading = false := by
  have hve : hasErrors (registerValidationErrors fd) = true := by
    rw [hasErrors, registerValidationErrors]
    rcases h with h | h | h <;> simp [Option.isSome_iff_ne_none, h]
  have htr : registerSubmitTrace fd http =
      [.setLoading true, .setMessage blankMessage,
       .setErrors (registerValidationErrors fd),
       .setMessage { type := "error", content := "Please fix the errors before submitting." },
       .armClearTimer, .setLoading false] := by
    simp [registerSubmitTrace, hve]
  rw [htr]
  exact ⟨rfl, rfl, rfl⟩

/-- Witness for C1 at the concrete invalid form
`{username := "ab", email := "a@b.com", password := "Valid1$pw"}`
(username too short). -/
theorem register_invalid_no_network_witness :
    (validateUsername "ab" ≠ none ∨ validateEmail "a@b.com" ≠ none ∨
      validatePassword "Valid1$pw" ≠ none) ∧
    ((registerSubmitTrace ⟨"ab", "a@b.com", "Valid1$pw"⟩ (.failure none)).countP isHttpPost = 0 ∧
     (runEvents ⟨⟨"", "", ""⟩, noFieldErrors, false, blankMessage, [], [], [], 0⟩
        (registerSubmitTrace ⟨"ab", "a@b.com", "Valid1$pw"⟩ (.failure none))).message =
       { type := "error", content := "Please fix the errors before submitting." } ∧
     (runEvents ⟨⟨"", "", ""⟩, noFieldErrors, false, blankMessage, [], [], [], 0⟩
        (registerSubmitTrace ⟨"ab", "a@b.com", "Valid1$pw"⟩ (.failure none))).isLoading = false) :=
  ⟨Or.inl (by decide),
    register_invalid_no_network ⟨"ab", "a@b.com", "Valid1$pw"⟩ (.failure none)
      ⟨⟨"", "", ""⟩, noFieldErrors, false, blankMessage, [], [], [], 0⟩
      (Or.inl (by decide))⟩

/-- C6: on both forms and in every outcome (validation failure, HTTP
success, HTTP failure) the submit handler's first effect sets the busy
flag to true and the handler ends with the busy flag false. -/
theorem busy_flag_set_then_cleared (rfd : RegisterFormData) (rh : RegisterHttp)
    (re0 : FormEnv RegisterFormData) (lfd : LoginFormData) (lh : LoginHttp)
    (le0 : FormEnv LoginFormData) :
    (registerSubmitTrace rfd rh).head? = some (.setLoading true) ∧
    (runEvents re0 (registerSubmitTrace rfd rh)).isLoading = false ∧
    (loginSubmitTrace lfd lh).head? = some (.setLoading true) ∧
    (runEvents le0 (loginSubmitTrace lfd lh)).isLoading = false := by
  refine ⟨rfl, ?_, rfl, ?_⟩
  · by_cases hve : hasErrors (registerValidationErrors rfd) = true
    · simp [registerSubmitTrace, hve, runEvents, applyEvent, List.foldl]
    · cases rh <;>
        simp [registerSubmitTrace, hve, runEvents, applyEvent, List.foldl]
  · cases lh <;> simp [loginSubmitTrace, runEvents, applyEvent, List.foldl]

/-- C7: a login submission whose HTTP call succeeds with token `token`
performs exactly one storage write, of `token` under the fixed key
"token", publishes the success status message, and schedules exactly one
navigation to the fixed external URL with a 1500 ms delay. -/
theorem login_success_effects (fd : LoginFormData) (token : String)
    (e0 : FormEnv LoginFormData) :
    (runEvents e0 (loginSubmitTrace fd (.success token))).storageWrites =
      e0.storageWrites ++ [("token", token)] ∧
    (runEvents e0 (loginSubmitTrace fd (.success token))).message =
      { type := "success", content := "Login successful! Redirecting..." } ∧
    (runEvents e0 (loginSubmitTrace fd (.success token))).navs =
      e0.navs ++ [("https://portfolio-shahid-frontend.vercel.app", 1500)] :=
  ⟨rfl, rfl, rfl⟩

/-- C9: when registration validation passes but the HTTP request fails,
the form data and the per-field errors of the final state equal those of
the pre-request state (the state after the first four effects, ending
with the `httpPost`), no storage write or navigation occurs, and only the
status message and the busy flag change. -/
theorem register_http_failure_atomic (fd : RegisterFormData) (sm : Option String)
    (e0 : FormEnv RegisterFormData)
    (h : hasErrors (registerValidationErrors fd) = false) :
    (runEvents e0 (registerSubmitTrace fd (.failure sm))).formData =
      (runEvents e0 ((registerSubmitTrace fd (.failure sm)).take 4)).formData ∧
    (runEvents e0 (registerSubmitTrace fd (.failure sm))).errors =
      (runEvents e0 ((registerSubmitTrace fd (.failure sm)).take 4)).errors ∧
    (runEvents e0 (registerSubmitTrace fd (.failure sm))).httpPosts =
      (runEvents e0 ((registerSubmitTrace fd (.failure sm)).take 4)).httpPosts ∧
    (runEvents e0 (registerSubmitTrace fd (.failure sm))).storageWrites = e0.storageWrites ∧
    (runEvents e0 (registerSubmitTrace fd (.failure sm))).navs = e0.navs ∧
    (runEvents e0 (registerSubmitTrace fd (.failure sm))).message =
      { type := "error"
        content := sm.getD "Registration failed due to a network or server issue." } ∧
    (runEvents e0 (registerSubmitTrace fd (.failure sm))).isLoading = false := by
  have htr : registerSubmitTrace fd (.failure sm) =
      [.setLoading true, .setMessage blankMessage,
       .setErrors (registerValidationErrors fd),
       .httpPost (API_BASE_URL ++ "/register") fd,
       .setMessage
         { type := "error"
           content := sm.getD "Registration failed due to a network or server issue." },
       .armClearTimer, .setLoading false] := by
    simp [registerSubmitTrace, h]
  rw [htr]
  exact ⟨rfl, rfl, rfl, rfl, rfl, rfl, rfl⟩

/-- Witness for C9 at the concrete valid form
`{username := "abc_123", email := "a@b.com", password := "Valid1$pw"}`
and an HTTP failure without a server message. -/
theorem register_http_failure_atomic_witness :
    hasErrors (registerValidationErrors ⟨"abc_123", "a@b.com", "Valid1$pw"⟩) = false ∧
    ((runEvents ⟨⟨"", "", ""⟩, noFieldErrors, false, blankMessage, [], [], [], 0⟩
        (registerSubmitTrace ⟨"abc_123", "a@b.com", "Valid1$pw"⟩ (.failure none))).formData =
      (runEvents ⟨⟨"", "", ""⟩, noFieldErrors, false, blankMessage, [], [], [], 0⟩
        ((registerSubmitTrace ⟨"abc_123", "a@b.com", "Valid1$pw"⟩ (.failure none)).take 4)).formData ∧
     (runEvents ⟨⟨"", "", ""⟩, noFieldErrors, false, blankMessage, [], [], [], 0⟩
        (registerSubmitTrace ⟨"abc_123", "a@b.com", "Valid1$pw"⟩ (.failure none))).errors =
      (runEvents ⟨⟨"", "", ""⟩, noFieldErrors, false, blankMessage, [], [], [], 0⟩
        ((registerSubmitTrace ⟨"abc_123", "a@b.com", "Valid1$pw"⟩ (.failure none)).take 4)).errors ∧
     (runEvents ⟨⟨"", "", ""⟩, noFieldErrors, false, blankMessage, [], [], [], 0⟩
        (registerSubmitTrace ⟨"abc_123", "a@b.com", "Valid1$pw"⟩ (.failure none))).httpPosts =
      (runEvents ⟨⟨"", "", ""⟩, noFieldErrors, false, blankMessage, [], [], [], 0⟩
        ((registerSubmitTrace ⟨"abc_123", "a@b.com", "Valid1$pw"⟩ (.failure none)).take 4)).httpPosts ∧
     (runEvents ⟨⟨"", "", ""⟩, noFieldErrors, false, blankMessage, [], [], [], 0⟩
        (registerSubmitTrace ⟨"abc_123", "a@b.com", "Valid1$pw"⟩ (.failure none))).storageWrites = [] ∧
     (runEvents ⟨⟨"", "", ""⟩, noFieldErrors, false, blankMessage, [], [], [], 0⟩
        (registerSubmitTrace ⟨"abc_123", "a@b.com", "Valid1$pw"⟩ (.failure none))).navs = [] ∧
     (runEvents ⟨⟨"", "", ""⟩, noFieldErrors, false, blankMessage, [], [], [], 0⟩
        (registerSubmitTrace ⟨"abc_123", "a@b.com", "Valid1$pw"⟩ (.failure none))).message =
       { type := "error"
         content := Option.getD none "Registration failed due to a network or server issue." } ∧
     (runEvents ⟨⟨"", "", ""⟩, noFieldErrors, false, blankMessage, [], [], [], 0⟩
        (registerSubmitTrace ⟨"abc_123", "a@b.com", "Valid1$pw"⟩ (.failure none))).isLoading = false) :=
  ⟨by decide,
    register_http_failure_atomic ⟨"abc_123", "a@b.com", "Valid1$pw"⟩ none
      ⟨⟨"", "", ""⟩, noFieldErrors, false, blankMessage, [], [], [], 0⟩ (by decide)⟩

/-- C10: on both forms the submit handler's first two effects are setting
the busy flag and resetting the shared status message to the empty
none-state, before any validation result or HTTP event; after those two
effects the displayed message is blank. -/
theorem submit_resets_message_first (rfd : RegisterFormData) (rh : RegisterHttp)
    (re0 : FormEnv RegisterFormData) (lfd : LoginFormData) (lh : LoginHttp)
    (le0 : FormEnv LoginFormData) :
    (registerSubmitTrace rfd rh).take 2 = [.setLoading true, .setMessage blankMessage] ∧
    (runEvents re0 ((registerSubmitTrace rfd rh).take 2)).message = blankMessage ∧
    (loginSubmitTrace lfd lh).take 2 = [.setLoading true, .setMessage blankMessage] ∧
    (runEvents le0 ((loginSubmitTrace lfd lh).take 2)).message = blankMessage :=
  ⟨rfl, rfl, rfl, rfl⟩

/-- C2 (divergence witness): the timer guard compares against the content
captured by the handler's stale `clearMessage` closure, not against the
message that armed the timer.  Scenario: the validation-error message P
is displayed; at t = 0 a failed registration publishes the network-error
message A, arming a 5 s timer whose closure captured P; at t = 1000 ms a
new invalid submission publishes P again (a newer message, arming a
second timer for t = 6000 ms); when the first timer fires at t = 5000 ms
it blanks the display even though the displayed message is the newer one
published at t = 1000 ms. -/
theorem stale_timer_blanks_newer_message :
    (submitPublish
        (submitPublish
          ⟨⟨"error", "Please fix the errors before submitting."⟩, []⟩ 0
          ⟨"error", "Registration failed due to a network or server issue."⟩)
        1000 ⟨"error", "Please fix the errors before submitting."⟩).timers =
      [(5000, "Please fix the errors before submitting."),
       (6000, "Registration failed due to a network or server issue.")] ∧
    (fireTimer
        (submitPublish
          (submitPublish
            ⟨⟨"error", "Please fix the errors before submitting."⟩, []⟩ 0
            ⟨"error", "Registration failed due to a network or server issue."⟩)
          1000 ⟨"error", "Please fix the errors before submitting."⟩)
        "Please fix the errors before submitting.").displayed = blankMessage := by
  exact ⟨rfl, by decide⟩

/-- C5 (divergence witness): the login success publish arms no expiry
timer at all (its trace contains no `clearMessage` call), and the timer
a registration error publish arms does not clear its own message when it
fires — a message published onto a blank display arms a timer capturing
the blank pre-submission content, and firing that timer leaves the state
unchanged, so the message does not self-clear 5 seconds after
publication. -/
theorem publish_timer_defects :
    (loginSubmitTrace ⟨"a@b.com", "Valid1$pw"⟩ (.success "abc")).countP isArmClearTimer = 0 ∧
    (submitPublish ⟨blankMessage, []⟩ 0
        ⟨"error", "Please fix the errors before submitting."⟩).timers = [(5000, "")] ∧
    fireTimer
        (submitPublish ⟨blankMessage, []⟩ 0
          ⟨"error", "Please fix the errors before submitting."⟩) "" =
      submitPublish ⟨blankMessage, []⟩ 0
        ⟨"error", "Please fix the errors before submitting."⟩ := by
  refine ⟨rfl, rfl, ?_⟩
  rw [fireTimer, if_neg (by decide)]

end RegDash
